import Mathlib

/-!
Verification of the control-builder protocol, the parse/unparse conversion
pipeline, and the validation aggregation engine of a declarative form
library (Rust sources: src/controls/mod.rs, src/form.rs,
src/controls/text_input.rs).

Modelling conventions:
- Rust strings (`String`, `&str`) are modelled as `List Char` (named `Str`);
  `str::trim` is modelled by `trim` below via `Char.isWhitespace`.
- `Result<T, E>` is modelled as `Except E T`; `Result<(), String>` as
  `Except String Unit`.
- Closures stored in builders (`Arc<dyn FieldGetter>`, `Box<dyn ParseFn>`,
  ...) are modelled as plain Lean functions; `Fn(&mut FD, FDT)` setters are
  modelled in state-passing style as `FD → FDT → FD`.
- The reactive wrapper `Signal<FD>` passed to `ShowWhenFn` is modelled by the
  current record snapshot `FD`, and `Arc<CX>` by `CX`.
- Generic bounds (`FromStr`, `ToString`, `TryFrom`, `Default`) are modelled
  by explicit function/value parameters: `fromStr : Str → Except E FDT`
  (with `eToString : E → String` for `Err: ToString`), `toStr : FDT → Str`,
  `tryFrom : CR → Except E FDT`, and a default value `dflt : FDT`.
- Type parameters: `FD` is the form-data (record) type, `CR` the control
  return (raw) type `C::ReturnType`, `FDT` the field domain type, `S` the
  styling-attribute type `FS::StylingAttributes`, `C` the control render
  data, `CX` the form context `FD::Context`.
-/

/-- Character-list model of Rust strings. -/
abbrev Str := List Char

/-- Model of Rust `str::trim_start`: drop leading whitespace. -/
def trimLeft (l : Str) : Str := l.dropWhile Char.isWhitespace

/-- Model of Rust `str::trim_end`: drop trailing whitespace. -/
def trimRight (l : Str) : Str := (l.reverse.dropWhile Char.isWhitespace).reverse

/-- Model of Rust `str::trim`: drop leading and trailing whitespace. -/
def trim (l : Str) : Str := trimRight (trimLeft l)

/-- Embeds `ControlRenderData` (src/controls/mod.rs:161): the styling
attributes plus the control-specific render data. -/
structure ControlRenderData (S C : Type) where
  styles : List S
  data : C

/-- Embeds `ControlBuildError` (src/controls/mod.rs:247): the possibilities
for errors when building a control. Constructor names follow the source. -/
inductive ControlBuildError
  | MissingGetter
  | MissingSetter
  | MissingParseFn
  | MissingUnParseFn
  deriving DecidableEq

variable {FD CR FDT S C CX E : Type}

/-- Embeds `BuiltControlData` (src/controls/mod.rs:270): the data returned
from an interactive control's build function. -/
structure BuiltControlData (FD CR FDT S C CX : Type) where
  render_data : ControlRenderData S C
  getter : FD → FDT
  setter : FD → FDT → FD
  parse_fn : CR → Except String FDT
  unparse_fn : FDT → CR
  validation_fn : Option (FD → Except String Unit)
  show_when : Option (FD → CX → Bool)

/-- Embeds `ControlBuilder` (src/controls/mod.rs:281): a builder for an
interactive control, accumulating optional components. -/
structure ControlBuilder (FD CR FDT S C CX : Type) where
  getter : Option (FD → FDT)
  setter : Option (FD → FDT → FD)
  parse_fn : Option (CR → Except String FDT)
  unparse_fn : Option (FDT → CR)
  validation_fn : Option (FD → Except String Unit)
  style_attributes : List S
  show_when : Option (FD → CX → Bool)
  data : C

/-- Embeds `ControlBuilder::new` (src/controls/mod.rs:294): all components
start absent, style attributes start empty. -/
def ControlBuilder.new (data : C) : ControlBuilder FD CR FDT S C CX :=
  { getter := none
    setter := none
    parse_fn := none
    unparse_fn := none
    validation_fn := none
    style_attributes := []
    show_when := none
    data := data }

/-- Embeds `ControlBuilder::build` (src/controls/mod.rs:310): checks
getter, setter, parse_fn, unparse_fn in that order, returning the error of
the first missing one (the Rust early returns become a match chain). -/
def ControlBuilder.build (b : ControlBuilder FD CR FDT S C CX) :
    Except ControlBuildError (BuiltControlData FD CR FDT S C CX) :=
  match b.getter with
  | none => Except.error ControlBuildError.MissingGetter
  | some getter =>
    match b.setter with
    | none => Except.error ControlBuildError.MissingSetter
    | some setter =>
      match b.parse_fn with
      | none => Except.error ControlBuildError.MissingParseFn
      | some parse_fn =>
        match b.unparse_fn with
        | none => Except.error ControlBuildError.MissingUnParseFn
        | some unparse_fn =>
          Except.ok
            { render_data := { data := b.data, styles := b.style_attributes }
              getter := getter
              setter := setter
              parse_fn := parse_fn
              unparse_fn := unparse_fn
              validation_fn := b.validation_fn
              show_when := b.show_when }

/-- Embeds `ControlBuilder::show_when` (src/controls/mod.rs:345); named
`withShowWhen` because the struct field is already called `show_when`. -/
def ControlBuilder.withShowWhen (b : ControlBuilder FD CR FDT S C CX)
    (w : FD → CX → Bool) : ControlBuilder FD CR FDT S C CX :=
  { b with show_when := some w }

/-- Embeds `ControlBuilder::getter` (src/controls/mod.rs:359); named
`withGetter` because the struct field is already called `getter`. -/
def ControlBuilder.withGetter (b : ControlBuilder FD CR FDT S C CX)
    (g : FD → FDT) : ControlBuilder FD CR FDT S C CX :=
  { b with getter := some g }

/-- Embeds `ControlBuilder::setter` (src/controls/mod.rs:370); named
`withSetter` because the struct field is already called `setter`. -/
def ControlBuilder.withSetter (b : ControlBuilder FD CR FDT S C CX)
    (s : FD → FDT → FD) : ControlBuilder FD CR FDT S C CX :=
  { b with setter := some s }

/-- Embeds `ControlBuilder::parse_custom` (src/controls/mod.rs:380): sets
both the parse and the unparse function to the supplied pair. -/
def ControlBuilder.parse_custom (b : ControlBuilder FD CR FDT S C CX)
    (parse_fn : CR → Except String FDT) (unparse_fn : FDT → CR) :
    ControlBuilder FD CR FDT S C CX :=
  { b with parse_fn := some parse_fn, unparse_fn := some unparse_fn }

/-- Embeds `ControlBuilder::style` (src/controls/mod.rs:391); named
`withStyle` for symmetry with the other renamed methods. `Vec::push`
appends at the end of the list. -/
def ControlBuilder.withStyle (b : ControlBuilder FD CR FDT S C CX)
    (attr : S) : ControlBuilder FD CR FDT S C CX :=
  { b with style_attributes := b.style_attributes ++ [attr] }

/-- Embeds `ControlBuilder::validation_fn` (src/controls/mod.rs:629); named
`withValidationFn` because the struct field is already called
`validation_fn`. -/
def ControlBuilder.withValidationFn (b : ControlBuilder FD CR FDT S C CX)
    (v : FD → Except String Unit) : ControlBuilder FD CR FDT S C CX :=
  { b with validation_fn := some v }

/-- The forward closure installed by `parse_from` (src/controls/mod.rs:412):
`FDT::try_from(v).map_err(|e| e.to_string())`. -/
def parse_from_forward (tryFrom : CR → Except E FDT) (eToString : E → String) :
    CR → Except String FDT :=
  fun control_return_value => (tryFrom control_return_value).mapError eToString

/-- Embeds `ControlBuilder::parse_from` (src/controls/mod.rs:411): installs
the `TryFrom`-based parse and the `From`-based unparse as a pair. -/
def ControlBuilder.parse_from (b : ControlBuilder FD CR FDT S C CX)
    (tryFrom : CR → Except E FDT) (eToString : E → String) (fromFn : FDT → CR) :
    ControlBuilder FD CR FDT S C CX :=
  { b with parse_fn := some (parse_from_forward tryFrom eToString)
           unparse_fn := some fromFn }

/-- The forward closure installed by `parse_from_msg`
(src/controls/mod.rs:436): `FDT::try_from(v).map_err(|_| msg.to_string())`. -/
def parse_from_msg_forward (tryFrom : CR → Except E FDT) (msg : String) :
    CR → Except String FDT :=
  fun control_return_value => (tryFrom control_return_value).mapError (fun _ => msg)

/-- Embeds `ControlBuilder::parse_from_msg` (src/controls/mod.rs:435). -/
def ControlBuilder.parse_from_msg (b : ControlBuilder FD CR FDT S C CX)
    (tryFrom : CR → Except E FDT) (msg : String) (fromFn : FDT → CR) :
    ControlBuilder FD CR FDT S C CX :=
  { b with parse_fn := some (parse_from_msg_forward tryFrom msg)
           unparse_fn := some fromFn }

/-- The forward closure installed by `parse_string`
(src/controls/mod.rs:461): `v.parse::<FDT>().map_err(|e| e.to_string())`. -/
def parse_string_forward (fromStr : Str → Except E FDT) (eToString : E → String) :
    Str → Except String FDT :=
  fun control_return_value => (fromStr control_return_value).mapError eToString

/-- The backward closure installed by every textual constructor
(src/controls/mod.rs:466 and the parallel lines): `|field| field.to_string()`. -/
def parse_string_backward (toStr : FDT → Str) : FDT → Str :=
  fun field => toStr field

/-- Embeds `ControlBuilder::parse_string` (src/controls/mod.rs:460). -/
def ControlBuilder.parse_string (b : ControlBuilder FD Str FDT S C CX)
    (fromStr : Str → Except E FDT) (eToString : E → String) (toStr : FDT → Str) :
    ControlBuilder FD Str FDT S C CX :=
  { b with parse_fn := some (parse_string_forward fromStr eToString)
           unparse_fn := some (parse_string_backward toStr) }

/-- The forward closure installed by `parse_trimmed`
(src/controls/mod.rs:479): `v.trim().parse::<FDT>().map_err(|e| e.to_string())`. -/
def parse_trimmed_forward (fromStr : Str → Except E FDT) (eToString : E → String) :
    Str → Except String FDT :=
  fun control_return_value => (fromStr (trim control_return_value)).mapError eToString

/-- Embeds `ControlBuilder::parse_trimmed` (src/controls/mod.rs:478). -/
def ControlBuilder.parse_trimmed (b : ControlBuilder FD Str FDT S C CX)
    (fromStr : Str → Except E FDT) (eToString : E → String) (toStr : FDT → Str) :
    ControlBuilder FD Str FDT S C CX :=
  { b with parse_fn := some (parse_trimmed_forward fromStr eToString)
           unparse_fn := some (parse_string_backward toStr) }

/-- The forward closure installed by `parse_string_msg`
(src/controls/mod.rs:498): `v.parse::<FDT>().map_err(|_| msg.to_string())`. -/
def parse_string_msg_forward (fromStr : Str → Except E FDT) (msg : String) :
    Str → Except String FDT :=
  fun control_return_value => (fromStr control_return_value).mapError (fun _ => msg)

/-- Embeds `ControlBuilder::parse_string_msg` (src/controls/mod.rs:497). -/
def ControlBuilder.parse_string_msg (b : ControlBuilder FD Str FDT S C CX)
    (fromStr : Str → Except E FDT) (msg : String) (toStr : FDT → Str) :
    ControlBuilder FD Str FDT S C CX :=
  { b with parse_fn := some (parse_string_msg_forward fromStr msg)
           unparse_fn := some (parse_string_backward toStr) }

/-- The forward closure installed by `parse_trimmed_msg`
(src/controls/mod.rs:517): `v.trim().parse::<FDT>().map_err(|_| msg)`. -/
def parse_trimmed_msg_forward (fromStr : Str → Except E FDT) (msg : String) :
    Str → Except String FDT :=
  fun control_return_value => (fromStr (trim control_return_value)).mapError (fun _ => msg)

/-- Embeds `ControlBuilder::parse_trimmed_msg` (src/controls/mod.rs:516). -/
def ControlBuilder.parse_trimmed_msg (b : ControlBuilder FD Str FDT S C CX)
    (fromStr : Str → Except E FDT) (msg : String) (toStr : FDT → Str) :
    ControlBuilder FD Str FDT S C CX :=
  { b with parse_fn := some (parse_trimmed_msg_forward fromStr msg)
           unparse_fn := some (parse_string_backward toStr) }

/-- The forward closure installed by `parse_optional`
(src/controls/mod.rs:546): `Ok(v.parse::<FDT>().ok())`. -/
def parse_optional_forward (fromStr : Str → Except E FDT) :
    Str → Except String (Option FDT) :=
  fun control_return_value =>
    Except.ok
      (match fromStr control_return_value with
       | Except.ok v => some v
       | Except.error _ => none)

/-- The backward closure installed by the optional constructors
(src/controls/mod.rs:549 and 567):
`field.map(|v| v.to_string()).unwrap_or_default()` (the default `String`
is empty). -/
def parse_optional_backward (toStr : FDT → Str) : Option FDT → Str :=
  fun field => (field.map toStr).getD []

/-- Embeds `ControlBuilder::parse_optional` (src/controls/mod.rs:545). -/
def ControlBuilder.parse_optional (b : ControlBuilder FD Str (Option FDT) S C CX)
    (fromStr : Str → Except E FDT) (toStr : FDT → Str) :
    ControlBuilder FD Str (Option FDT) S C CX :=
  { b with parse_fn := some (parse_optional_forward fromStr)
           unparse_fn := some (parse_optional_backward toStr) }

/-- The forward closure installed by `parse_optional_trimmed`
(src/controls/mod.rs:564): `Ok(v.trim().parse::<FDT>().ok())`. -/
def parse_optional_trimmed_forward (fromStr : Str → Except E FDT) :
    Str → Except String (Option FDT) :=
  fun control_return_value =>
    Except.ok
      (match fromStr (trim control_return_value) with
       | Except.ok v => some v
       | Except.error _ => none)

/-- Embeds `ControlBuilder::parse_optional_trimmed`
(src/controls/mod.rs:563). -/
def ControlBuilder.parse_optional_trimmed (b : ControlBuilder FD Str (Option FDT) S C CX)
    (fromStr : Str → Except E FDT) (toStr : FDT → Str) :
    ControlBuilder FD Str (Option FDT) S C CX :=
  { b with parse_fn := some (parse_optional_trimmed_forward fromStr)
           unparse_fn := some (parse_optional_backward toStr) }

/-- The forward closure installed by `parse_or_default`
(src/controls/mod.rs:591): `Ok(v.parse::<FDT>().unwrap_or_default())`;
`dflt` models `FDT::default()`. -/
def parse_or_default_forward (fromStr : Str → Except E FDT) (dflt : FDT) :
    Str → Except String FDT :=
  fun control_return_value =>
    Except.ok
      (match fromStr control_return_value with
       | Except.ok v => v
       | Except.error _ => dflt)

/-- Embeds `ControlBuilder::parse_or_default` (src/controls/mod.rs:590). -/
def ControlBuilder.parse_or_default (b : ControlBuilder FD Str FDT S C CX)
    (fromStr : Str → Except E FDT) (dflt : FDT) (toStr : FDT → Str) :
    ControlBuilder FD Str FDT S C CX :=
  { b with parse_fn := some (parse_or_default_forward fromStr dflt)
           unparse_fn := some (parse_string_backward toStr) }

/-- The forward closure installed by `parse_trimmed_or_default`
(src/controls/mod.rs:607): `Ok(v.trim().parse::<FDT>().unwrap_or_default())`. -/
def parse_trimmed_or_default_forward (fromStr : Str → Except E FDT) (dflt : FDT) :
    Str → Except String FDT :=
  fun control_return_value =>
    Except.ok
      (match fromStr (trim control_return_value) with
       | Except.ok v => v
       | Except.error _ => dflt)

/-- Embeds `ControlBuilder::parse_trimmed_or_default`
(src/controls/mod.rs:606). -/
def ControlBuilder.parse_trimmed_or_default (b : ControlBuilder FD Str FDT S C CX)
    (fromStr : Str → Except E FDT) (dflt : FDT) (toStr : FDT → Str) :
    ControlBuilder FD Str FDT S C CX :=
  { b with parse_fn := some (parse_trimmed_or_default_forward fromStr dflt)
           unparse_fn := some (parse_string_backward toStr) }

/-- Embeds `VanityControlBuilder` (src/controls/mod.rs:179): builder for a
read-only control; the getter (to a `String`) and visibility predicate are
optional and nothing else is required. -/
structure VanityControlBuilder (FD S C CX : Type) where
  style_attributes : List S
  data : C
  getter : Option (FD → Str)
  show_when : Option (FD → CX → Bool)

/-- Embeds `BuiltVanityControlData` (src/controls/mod.rs:186). -/
structure BuiltVanityControlData (FD S C CX : Type) where
  render_data : ControlRenderData S C
  getter : Option (FD → Str)
  show_when : Option (FD → CX → Bool)

/-- Embeds `VanityControlBuilder::new` (src/controls/mod.rs:194). -/
def VanityControlBuilder.new (data : C) : VanityControlBuilder FD S C CX :=
  { data := data
    style_attributes := []
    getter := none
    show_when := none }

/-- Embeds `VanityControlBuilder::build` (src/controls/mod.rs:204): it
returns the built data directly; its Rust signature has no `Result`, so the
Lean embedding is a total function with no error outcome. -/
def VanityControlBuilder.build (b : VanityControlBuilder FD S C CX) :
    BuiltVanityControlData FD S C CX :=
  { render_data := { data := b.data, styles := b.style_attributes }
    getter := b.getter
    show_when := b.show_when }

/-- Embeds `VanityControlBuilder::show_when` (src/controls/mod.rs:218). -/
def VanityControlBuilder.withShowWhen (b : VanityControlBuilder FD S C CX)
    (w : FD → CX → Bool) : VanityControlBuilder FD S C CX :=
  { b with show_when := some w }

/-- Embeds `VanityControlBuilder::getter` (src/controls/mod.rs:239). -/
def VanityControlBuilder.withGetter (b : VanityControlBuilder FD S C CX)
    (g : FD → Str) : VanityControlBuilder FD S C CX :=
  { b with getter := some g }

/-- Embeds `FormValidator` (src/form.rs:22): the ordered list of validation
closures gathered from all fields, in field-declaration order. -/
structure FormValidator (FD : Type) where
  validations : List (FD → Except String Unit)

/-- The loop body of `FormValidator::validate` (src/form.rs:31): run each
closure in order; `(*v)(form_data)?` propagates the first error. -/
def runValidations (fd : FD) : List (FD → Except String Unit) → Except String Unit
  | [] => Except.ok ()
  | v :: rest =>
    match v fd with
    | Except.error e => Except.error e
    | Except.ok _ => runValidations fd rest

/-- Embeds `FormValidator::validate` (src/form.rs:31). -/
def FormValidator.validate (fv : FormValidator FD) (fd : FD) : Except String Unit :=
  runValidations fd fv.validations

/-- Embeds `Form` (src/form.rs:43) restricted to the data/validation parts;
`fd` models the current value of the `RwSignal<FD>` and the rendered view
is out of scope. -/
structure Form (FD : Type) where
  fd : FD
  validations : List (FD → Except String Unit)

/-- Embeds `Form::validator` (src/form.rs:53). -/
def Form.validator (f : Form FD) : FormValidator FD :=
  { validations := f.validations }

/-- Embeds `Form::validate` (src/form.rs:60): delegates to the validator on
the current snapshot. -/
def Form.validate (f : Form FD) : Except String Unit :=
  f.validator.validate f.fd

/-- Modelled from the spec: the per-field data that `FormBuilder::new_control`
(src/form_builder.rs, not present under src/) folds into the aggregator: an
optional visibility predicate and an optional validation predicate
(spec 4.3, 4.4; the `show_when` doc comment in src/controls/mod.rs:217 and
344 states that validations for components that are not shown do not run). -/
structure FieldEntry (FD CX : Type) where
  show_when : Option (FD → CX → Bool)
  validation_fn : Option (FD → Except String Unit)

/-- Modelled from the spec: a field with no visibility predicate is always
shown; otherwise the predicate is evaluated on the current snapshot
(spec 4.3). -/
def FieldEntry.isVisible (fe : FieldEntry FD CX) (fd : FD) (cx : CX) : Bool :=
  match fe.show_when with
  | none => true
  | some w => w fd cx

/-- Modelled from the spec: the closure contributed by one field to the
`FormValidator` list. A hidden field's validation predicate is skipped
entirely and the field vacuously passes; a field without a validation
predicate also vacuously passes (spec 4.3, 4.4). Visibility is evaluated
per snapshot inside the closure, not baked in at aggregation time. -/
def FieldEntry.effectiveValidation (fe : FieldEntry FD CX) (cx : CX) :
    FD → Except String Unit :=
  fun fd =>
    if fe.isVisible fd cx then
      match fe.validation_fn with
      | none => Except.ok ()
      | some v => v fd
    else Except.ok ()

/-- Modelled from the spec: the aggregator built from the fields of a form
in declaration order (spec 4.4, 4.5). -/
def formValidatorOfFields (fields : List (FieldEntry FD CX)) (cx : CX) :
    FormValidator FD :=
  { validations := fields.map (fun fe => fe.effectiveValidation cx) }

/-- Sample interactive builder with no components, for concrete evaluation. -/
def cbEmpty : ControlBuilder Nat Str Nat Unit Unit Unit :=
  ControlBuilder.new ()

/-- Sample interactive builder with only the getter set. -/
def cbGetterOnly : ControlBuilder Nat Str Nat Unit Unit Unit :=
  cbEmpty.withGetter (fun n => n)

/-- C1: `ControlBuilder::build` returns an error exactly when one of getter,
setter, parse function, unparse function is missing; the error is the one
for the first missing component in the fixed order getter, setter, parse,
unparse; if all four are present it succeeds with a descriptor containing
them (together with the accumulated style attributes, data, validation
predicate and visibility predicate). -/
theorem build_first_missing_component (b : ControlBuilder FD CR FDT S C CX) :
    (b.getter = none → b.build = Except.error ControlBuildError.MissingGetter) ∧
    (b.getter.isSome = true → b.setter = none →
      b.build = Except.error ControlBuildError.MissingSetter) ∧
    (b.getter.isSome = true → b.setter.isSome = true → b.parse_fn = none →
      b.build = Except.error ControlBuildError.MissingParseFn) ∧
    (b.getter.isSome = true → b.setter.isSome = true → b.parse_fn.isSome = true →
      b.unparse_fn = none →
      b.build = Except.error ControlBuildError.MissingUnParseFn) ∧
    (∀ g s p u, b.getter = some g → b.setter = some s → b.parse_fn = some p →
      b.unparse_fn = some u →
      b.build = Except.ok
        { render_data := { data := b.data, styles := b.style_attributes }
          getter := g
          setter := s
          parse_fn := p
          unparse_fn := u
          validation_fn := b.validation_fn
          show_when := b.show_when }) ∧
    ((∃ e, b.build = Except.error e) ↔
      (b.getter = none ∨ b.setter = none ∨ b.parse_fn = none ∨ b.unparse_fn = none)) := by
  rcases hg : b.getter with _ | g <;> rcases hs : b.setter with _ | s <;>
    rcases hp : b.parse_fn with _ | p <;> rcases hu : b.unparse_fn with _ | u <;>
    simp [ControlBuilder.build, hg, hs, hp, hu]
  exact fun g1 s1 p1 u1 h1 h2 h3 h4 => ⟨h1, h2, h3, h4⟩

/-- Witness for C1: the empty builder fails with `MissingGetter`, and the
builder with only a getter fails with `MissingSetter`. -/
theorem build_first_missing_component_witness :
    cbEmpty.build = Except.error ControlBuildError.MissingGetter ∧
    cbGetterOnly.build = Except.error ControlBuildError.MissingSetter :=
  ⟨(build_first_missing_component cbEmpty).1 rfl,
   (build_first_missing_component cbGetterOnly).2.1 rfl rfl⟩

/-- Helper: `runValidations` succeeds exactly when every entry passes. -/
theorem runValidations_ok_iff (fd : FD) (l : List (FD → Except String Unit)) :
    runValidations fd l = Except.ok () ↔ ∀ v ∈ l, v fd = Except.ok () := by
  induction l with
  | nil => simp [runValidations]
  | cons v rest ih =>
    rcases h : v fd with e | u
    · simp [runValidations, h]
    · cases u
      simp [runValidations, h, ih]

/-- Helper: `runValidations` returns the first failing entry's message, for
any entries after it. -/
theorem runValidations_first_error (fd : FD) (pre post : List (FD → Except String Unit))
    (v : FD → Except String Unit) (e : String)
    (hpre : ∀ w ∈ pre, w fd = Except.ok ()) (hv : v fd = Except.error e) :
    runValidations fd (pre ++ v :: post) = Except.error e := by
  induction pre with
  | nil => simp [runValidations, hv]
  | cons w rest ih =>
    have hw : w fd = Except.ok () := hpre w (by simp)
    simp only [List.cons_append, runValidations, hw]
    exact ih (fun x hx => hpre x (by simp [hx]))

/-- C2: `FormValidator::validate` runs the entries in declaration order and
returns the message of the first failing entry — independently of the
entries after it, which are therefore never evaluated — and succeeds exactly
when every entry passes; `Form::validate` delegates to it on the current
snapshot. -/
theorem validate_first_failure (fv : FormValidator FD) (fd : FD) :
    (fv.validate fd = Except.ok () ↔ ∀ v ∈ fv.validations, v fd = Except.ok ()) ∧
    (∀ pre v post e, fv.validations = pre ++ v :: post →
      (∀ w ∈ pre, w fd = Except.ok ()) → v fd = Except.error e →
      fv.validate fd = Except.error e) ∧
    (∀ f : Form FD, f.validate = f.validator.validate f.fd) := by
  refine ⟨runValidations_ok_iff fd fv.validations, ?_, fun _ => rfl⟩
  intro pre v post e hsplit hpre hv
  show runValidations fd fv.validations = Except.error e
  rw [hsplit]
  exact runValidations_first_error fd pre post v e hpre hv

/-- Sample validation entry: fails on record `0` with the email message. -/
def emailCheck : Nat → Except String Unit :=
  fun n => if n = 0 then Except.error "email required" else Except.ok ()

/-- Sample validation entry: fails on record `0` with the phone message. -/
def phoneCheck : Nat → Except String Unit :=
  fun n => if n = 0 then Except.error "phone required" else Except.ok ()

/-- Sample validator with the email entry declared before the phone entry. -/
def sampleValidator : FormValidator Nat :=
  { validations := [emailCheck, phoneCheck] }

/-- Witness for C2: with both entries failing on record `0`, validate
returns the first (email) message. -/
theorem validate_first_failure_witness :
    sampleValidator.validate 0 = Except.error "email required" :=
  (validate_first_failure sampleValidator 0).2.1 [] emailCheck [phoneCheck]
    "email required" rfl (by simp) rfl

/-- C3: a field whose visibility predicate returns false for the snapshot
contributes nothing to the aggregate outcome: its entry evaluates to
success whatever its validation predicate is (so the predicate is never
run), and the aggregated validator succeeds whenever every visible field's
validation predicate passes, regardless of hidden fields' state. -/
theorem hidden_field_validation_skipped (fields : List (FieldEntry FD CX))
    (cx : CX) (fd : FD) :
    ((∀ fe ∈ fields, fe.isVisible fd cx = true →
        ∀ v, fe.validation_fn = some v → v fd = Except.ok ()) →
      (formValidatorOfFields fields cx).validate fd = Except.ok ()) ∧
    (∀ fe : FieldEntry FD CX, fe.isVisible fd cx = false →
      ∀ vopt, FieldEntry.effectiveValidation { fe with validation_fn := vopt } cx fd
        = Except.ok ()) := by
  constructor
  · intro h
    show runValidations fd ((formValidatorOfFields fields cx).validations) = Except.ok ()
    rw [runValidations_ok_iff]
    intro v hv
    rcases List.mem_map.mp hv with ⟨fe, hfe, rfl⟩
    unfold FieldEntry.effectiveValidation
    by_cases hvis : fe.isVisible fd cx = true
    · rw [if_pos hvis]
      rcases hval : fe.validation_fn with _ | vf
      · rfl
      · exact h fe hfe hvis vf hval
    · rw [if_neg hvis]
  · intro fe hvis vopt
    unfold FieldEntry.effectiveValidation
    have : FieldEntry.isVisible { fe with validation_fn := vopt } fd cx = false := by
      simpa [FieldEntry.isVisible] using hvis
    rw [this]
    simp

/-- Sample field: hidden for every snapshot, with an always-failing
validation predicate. -/
def hiddenBad : FieldEntry Nat Unit :=
  { show_when := some (fun _ _ => false)
    validation_fn := some (fun _ => Except.error "hidden failure") }

/-- Sample field: always visible, passing exactly on record `1`. -/
def visibleGood : FieldEntry Nat Unit :=
  { show_when := none
    validation_fn := some (fun n => if n = 1 then Except.ok () else Except.error "bad") }

/-- Witness for C3: with a hidden always-failing field declared before a
visible passing field, validation of record `1` succeeds. -/
theorem hidden_field_validation_skipped_witness :
    (formValidatorOfFields [hiddenBad, visibleGood] ()).validate 1 = Except.ok () :=
  (hidden_field_validation_skipped [hiddenBad, visibleGood] () 1).1 (by
    intro fe hfe hvis v hv
    simp only [List.mem_cons, List.not_mem_nil, or_false] at hfe
    rcases hfe with rfl | rfl
    · simp [hiddenBad, FieldEntry.isVisible] at hvis
    · simp only [visibleGood, Option.some.injEq] at hv
      subst hv
      rfl)

/-- C4: the forward parse functions installed by the defaulting and
optional conversion variants (`parse_or_default`, `parse_trimmed_or_default`,
`parse_optional`, `parse_optional_trimmed`) return `Ok` on every input
string: an underlying parse failure is absorbed into the default value or
the `none` marker and never becomes an error. -/
theorem defaulting_optional_forward_total (fromStr : Str → Except E FDT)
    (dflt : FDT) (s : Str) :
    (∃ v, parse_or_default_forward fromStr dflt s = Except.ok v) ∧
    (∃ v, parse_trimmed_or_default_forward fromStr dflt s = Except.ok v) ∧
    (∃ v, parse_optional_forward fromStr s = Except.ok v) ∧
    (∃ v, parse_optional_trimmed_forward fromStr s = Except.ok v) :=
  ⟨⟨_, rfl⟩, ⟨_, rfl⟩, ⟨_, rfl⟩, ⟨_, rfl⟩⟩

/-- Model of the standard `String` instance of `FromStr` (infallible,
identity) used to instantiate the generic pipelines in concrete examples. -/
def strFromStr : Str → Except String Str := fun s => Except.ok s

/-- Model of the standard `String` instance of `ToString` (identity). -/
def strToString : Str → Str := fun s => s

/-- C5 counterexample: with the `String` instance (whose parse always
succeeds), the `parse_trimmed` pipeline succeeds on the raw string " x "
but the backward direction of the parsed value yields "x", not " x ": the
round trip is not the identity on every successfully parsed raw string. -/
theorem textual_round_trip_counterexample :
    parse_trimmed_forward strFromStr (fun e => e) ([' ', 'x', ' '] : Str)
      = Except.ok (['x'] : Str) ∧
    parse_string_backward strToString (['x'] : Str) ≠ ([' ', 'x', ' '] : Str) := by
  constructor
  · rfl
  · decide

/-- C5 (amended): the forward direction of the textual pipelines succeeds
exactly when the underlying `FromStr` parse succeeds (on the trimmed string
for `parse_trimmed`), and the backward direction is exactly the underlying
`ToString` rendering; hence `backward(forward(raw).unwrap())` equals `raw`
whenever `raw` parses successfully and is the canonical rendering of its
parsed value, and for the trimmed variant it equals the trimmed raw string
under the corresponding condition. -/
theorem textual_round_trip (fromStr : Str → Except E FDT)
    (eToString : E → String) (toStr : FDT → Str) (raw : Str) (v : FDT) :
    (parse_string_forward fromStr eToString raw = Except.ok v ↔
      fromStr raw = Except.ok v) ∧
    (parse_trimmed_forward fromStr eToString raw = Except.ok v ↔
      fromStr (trim raw) = Except.ok v) ∧
    (parse_string_forward fromStr eToString raw = Except.ok v → toStr v = raw →
      parse_string_backward toStr v = raw) ∧
    (parse_trimmed_forward fromStr eToString raw = Except.ok v → toStr v = trim raw →
      parse_string_backward toStr v = trim raw) := by
  refine ⟨?_, ?_, fun _ h => h, fun _ h => h⟩
  · unfold parse_string_forward
    rcases h : fromStr raw with e | w <;> simp [h, Except.mapError]
  · unfold parse_trimmed_forward
    rcases h : fromStr (trim raw) with e | w <;> simp [h, Except.mapError]

/-- Witness for C5 (amended): the ["x"] raw string parses to itself under
the `String` instance and round-trips to itself. -/
theorem textual_round_trip_witness :
    parse_string_backward strToString (['x'] : Str) = (['x'] : Str) :=
  (textual_round_trip strFromStr (fun e => e) strToString ['x'] ['x']).2.2.1 rfl rfl

/-- Helper: `dropWhile` skips over a prefix all of whose elements satisfy
the predicate. -/
theorem dropWhile_append_all {p : Char → Bool} {pre : Str} (l : Str)
    (h : ∀ c ∈ pre, p c = true) :
    (pre ++ l).dropWhile p = l.dropWhile p := by
  induction pre with
  | nil => rfl
  | cons c rest ih =>
    have hc : p c = true := h c (by simp)
    simp only [List.cons_append, List.dropWhile_cons, hc, if_true]
    exact ih (fun x hx => h x (by simp [hx]))

/-- Helper: `dropWhile` on a list all of whose elements satisfy the
predicate yields the empty list. -/
theorem dropWhile_eq_nil_of_all {p : Char → Bool} {l : Str}
    (h : ∀ c ∈ l, p c = true) : l.dropWhile p = [] := by
  have := dropWhile_append_all ([] : Str) h
  simpa using this

/-- Helper: `dropWhile` across an append, by cases on whether the first
part is consumed entirely. -/
theorem dropWhile_append_cases {p : Char → Bool} (a b : Str) :
    (a ++ b).dropWhile p =
      if a.dropWhile p = [] then b.dropWhile p else a.dropWhile p ++ b := by
  induction a with
  | nil => simp
  | cons c t ih =>
    by_cases hc : p c
    · simpa [List.dropWhile_cons, hc] using ih
    · simp [List.dropWhile_cons, hc]

/-- Helper: trailing all-whitespace content does not change `trimRight`. -/
theorem trimRight_append_ws {suf : Str} (l : Str)
    (hsuf : ∀ c ∈ suf, Char.isWhitespace c = true) :
    trimRight (l ++ suf) = trimRight l := by
  unfold trimRight
  rw [List.reverse_append,
    dropWhile_append_all l.reverse (fun c hc => hsuf c (List.mem_reverse.mp hc))]

/-- Helper: surrounding all-whitespace content does not change `trim`. -/
theorem trim_append_ws {pre suf : Str} (raw : Str)
    (hpre : ∀ c ∈ pre, Char.isWhitespace c = true)
    (hsuf : ∀ c ∈ suf, Char.isWhitespace c = true) :
    trim (pre ++ raw ++ suf) = trim raw := by
  show trimRight (trimLeft (pre ++ raw ++ suf)) = trimRight (trimLeft raw)
  rw [List.append_assoc]
  unfold trimLeft
  rw [dropWhile_append_all (raw ++ suf) hpre, dropWhile_append_cases]
  by_cases h : raw.dropWhile Char.isWhitespace = []
  · rw [if_pos h, h, dropWhile_eq_nil_of_all hsuf]
  · rw [if_neg h]
    exact trimRight_append_ws _ hsuf

/-- C6: the forward parse functions of all trimmed variants
(`parse_trimmed`, `parse_trimmed_msg`, `parse_optional_trimmed`,
`parse_trimmed_or_default`) are insensitive to adding or removing leading
and trailing whitespace around the raw string. -/
theorem trimmed_forward_whitespace_insensitive (fromStr : Str → Except E FDT)
    (eToString : E → String) (msg : String) (dflt : FDT) (pre suf raw : Str)
    (hpre : ∀ c ∈ pre, Char.isWhitespace c = true)
    (hsuf : ∀ c ∈ suf, Char.isWhitespace c = true) :
    parse_trimmed_forward fromStr eToString (pre ++ raw ++ suf)
      = parse_trimmed_forward fromStr eToString raw ∧
    parse_trimmed_msg_forward fromStr msg (pre ++ raw ++ suf)
      = parse_trimmed_msg_forward fromStr msg raw ∧
    parse_optional_trimmed_forward fromStr (pre ++ raw ++ suf)
      = parse_optional_trimmed_forward fromStr raw ∧
    parse_trimmed_or_default_forward fromStr dflt (pre ++ raw ++ suf)
      = parse_trimmed_or_default_forward fromStr dflt raw := by
  have ht := trim_append_ws raw hpre hsuf
  refine ⟨?_, ?_, ?_, ?_⟩ <;>
    simp only [parse_trimmed_forward, parse_trimmed_msg_forward,
      parse_optional_trimmed_forward, parse_trimmed_or_default_forward, ht]

/-- Witness for C6: adding a leading space and a trailing tab around "x"
does not change the trimmed forward parse under the `String` instance. -/
theorem trimmed_forward_whitespace_insensitive_witness :
    (∀ c ∈ ([' '] : Str), Char.isWhitespace c = true) ∧
    parse_trimmed_forward strFromStr (fun e => e) ([' '] ++ ['x'] ++ ['\t'])
      = parse_trimmed_forward strFromStr (fun e => e) ['x'] :=
  ⟨by decide,
   (trimmed_forward_whitespace_insensitive strFromStr (fun e => e) "m" []
      [' '] ['\t'] ['x'] (by decide) (by decide)).1⟩

/-- C7: the backward direction installed by the optional variants maps the
absent marker `none` to the empty raw string and `some v` to the textual
rendering of `v`; both `parse_optional` and `parse_optional_trimmed`
install exactly this (total) backward function. -/
theorem optional_backward_spec (toStr : FDT → Str) (fromStr : Str → Except E FDT)
    (b : ControlBuilder FD Str (Option FDT) S C CX) :
    parse_optional_backward toStr none = [] ∧
    (∀ v, parse_optional_backward toStr (some v) = toStr v) ∧
    (b.parse_optional fromStr toStr).unparse_fn = some (parse_optional_backward toStr) ∧
    (b.parse_optional_trimmed fromStr toStr).unparse_fn
      = some (parse_optional_backward toStr) :=
  ⟨rfl, fun _ => rfl, rfl, rfl⟩

/-- C8: `VanityControlBuilder::build` always succeeds — its result type has
no error outcome — and returns the built control data assembled from the
accumulated state, in every configuration (with or without a getter or a
visibility predicate, as the extra conjunct shows for an arbitrary pair of
installed components). -/
theorem vanity_build_total (b : VanityControlBuilder FD S C CX)
    (g : FD → Str) (w : FD → CX → Bool) :
    b.build = { render_data := { data := b.data, styles := b.style_attributes }
                getter := b.getter
                show_when := b.show_when } ∧
    ((b.withGetter g).withShowWhen w).build
      = { render_data := { data := b.data, styles := b.style_attributes }
          getter := some g
          show_when := some w } :=
  ⟨rfl, rfl⟩

/-- C9: every conversion-installing operation sets the parse and unparse
functions together as one matched pair, fully replacing any previous pair,
independently of the builder's prior state (`b`, `bs`, `bo` are arbitrary);
no operation sets only one direction. -/
theorem parse_ops_install_matched_pair {FDT2 E2 : Type}
    (b : ControlBuilder FD CR FDT S C CX)
    (bs : ControlBuilder FD Str FDT2 S C CX)
    (bo : ControlBuilder FD Str (Option FDT2) S C CX)
    (p : CR → Except String FDT) (u : FDT → CR)
    (tryFrom : CR → Except E FDT) (eToString : E → String) (fromFn : FDT → CR)
    (msg : String) (fromStr : Str → Except E2 FDT2) (eToString2 : E2 → String)
    (toStr : FDT2 → Str) (dflt : FDT2) :
    ((b.parse_custom p u).parse_fn = some p ∧
      (b.parse_custom p u).unparse_fn = some u) ∧
    ((b.parse_from tryFrom eToString fromFn).parse_fn
        = some (parse_from_forward tryFrom eToString) ∧
      (b.parse_from tryFrom eToString fromFn).unparse_fn = some fromFn) ∧
    ((b.parse_from_msg tryFrom msg fromFn).parse_fn
        = some (parse_from_msg_forward tryFrom msg) ∧
      (b.parse_from_msg tryFrom msg fromFn).unparse_fn = some fromFn) ∧
    ((bs.parse_string fromStr eToString2 toStr).parse_fn
        = some (parse_string_forward fromStr eToString2) ∧
      (bs.parse_string fromStr eToString2 toStr).unparse_fn
        = some (parse_string_backward toStr)) ∧
    ((bs.parse_trimmed fromStr eToString2 toStr).parse_fn
        = some (parse_trimmed_forward fromStr eToString2) ∧
      (bs.parse_trimmed fromStr eToString2 toStr).unparse_fn
        = some (parse_string_backward toStr)) ∧
    ((bs.parse_string_msg fromStr msg toStr).parse_fn
        = some (parse_string_msg_forward fromStr msg) ∧
      (bs.parse_string_msg fromStr msg toStr).unparse_fn
        = some (parse_string_backward toStr)) ∧
    ((bs.parse_trimmed_msg fromStr msg toStr).parse_fn
        = some (parse_trimmed_msg_forward fromStr msg) ∧
      (bs.parse_trimmed_msg fromStr msg toStr).unparse_fn
        = some (parse_string_backward toStr)) ∧
    ((bo.parse_optional fromStr toStr).parse_fn
        = some (parse_optional_forward fromStr) ∧
      (bo.parse_optional fromStr toStr).unparse_fn
        = some (parse_optional_backward toStr)) ∧
    ((bo.parse_optional_trimmed fromStr toStr).parse_fn
        = some (parse_optional_trimmed_forward fromStr) ∧
      (bo.parse_optional_trimmed fromStr toStr).unparse_fn
        = some (parse_optional_backward toStr)) ∧
    ((bs.parse_or_default fromStr dflt toStr).parse_fn
        = some (parse_or_default_forward fromStr dflt) ∧
      (bs.parse_or_default fromStr dflt toStr).unparse_fn
        = some (parse_string_backward toStr)) ∧
    ((bs.parse_trimmed_or_default fromStr dflt toStr).parse_fn
        = some (parse_trimmed_or_default_forward fromStr dflt) ∧
      (bs.parse_trimmed_or_default fromStr dflt toStr).unparse_fn
        = some (parse_string_backward toStr)) :=
  ⟨⟨rfl, rfl⟩, ⟨rfl, rfl⟩, ⟨rfl, rfl⟩, ⟨rfl, rfl⟩, ⟨rfl, rfl⟩, ⟨rfl, rfl⟩,
   ⟨rfl, rfl⟩, ⟨rfl, rfl⟩, ⟨rfl, rfl⟩, ⟨rfl, rfl⟩, ⟨rfl, rfl⟩⟩

/-- C10: each builder configuration operation changes only its own
component: the getter setter installs only the getter, and similarly for
the setter, the validation predicate and the visibility predicate, while
`style` appends exactly one attribute at the end of the style list; all
other accumulated components are left unchanged, as the record-update
equations state. -/
theorem builder_ops_frame (b : ControlBuilder FD CR FDT S C CX)
    (g : FD → FDT) (s : FD → FDT → FD) (vf : FD → Except String Unit)
    (w : FD → CX → Bool) (attr : S) :
    b.withGetter g = { b with getter := some g } ∧
    b.withSetter s = { b with setter := some s } ∧
    b.withValidationFn vf = { b with validation_fn := some vf } ∧
    b.withShowWhen w = { b with show_when := some w } ∧
    b.withStyle attr = { b with style_attributes := b.style_attributes ++ [attr] } :=
  ⟨rfl, rfl, rfl, rfl, rfl⟩
